import Mathlib

/-!
Shallow embedding of `custom_components/googlewifi/sensor.py`.

The module defines two Home Assistant sensor entity classes over a polling
coordinator's data snapshot:
* `GoogleWifiSpeedSensor` — projects `speedtest[<speed_key>]` out of a
  system's record, scales it by the configured display unit and rounds to
  two decimal places, caching the result in `self._state`;
* `GoogleWifiConnectedDevices` — projects one of the three device-count
  fields out of a system's record according to `self._count_type`.

Python values are idealised as follows: JSON numbers become `ℚ` (the
`float` arithmetic of the source is modelled exactly over the rationals,
with `1e-6` read as `10 ^ (-6 : ℤ)` and `round(x, 2)` as round-half-to-even
at two decimal places); dictionaries become association lists or structures
with `Option`/`Field` components; an exception raised by an expression
becomes an `Except PyErr` error value.  Mutation of `self` is modelled by
returning the updated entity next to the produced value.
-/

namespace GoogleWifi

/-- Python exceptions that the embedded code can raise or catch:
`KeyError` from indexing a dict with a missing key, `TypeError` from
subscripting `None`, and `UnboundLocalError` from reading a local variable
that was never assigned. -/
inductive PyErr where
  | keyError
  | typeError
  | unboundLocalError
deriving DecidableEq, Repr

/-- A dict member that is either missing (indexing raises `KeyError`),
present with value `None` (subscripting the result raises `TypeError`),
or present with a real value. -/
inductive Field (α : Type) where
  | absent : Field α
  | null : Field α
  | val : α → Field α
deriving DecidableEq, Repr

/-- Constant `homeassistant.const.DATA_RATE_BYTES_PER_SECOND`. -/
def DATA_RATE_BYTES_PER_SECOND : String := "B/s"

/-- Constant `homeassistant.const.DATA_RATE_KILOBYTES_PER_SECOND`. -/
def DATA_RATE_KILOBYTES_PER_SECOND : String := "kB/s"

/-- Constant `homeassistant.const.DATA_RATE_MEGABYTES_PER_SECOND`. -/
def DATA_RATE_MEGABYTES_PER_SECOND : String := "MB/s"

/-- Constant `homeassistant.const.DATA_RATE_GIGABYTES_PER_SECOND`. -/
def DATA_RATE_GIGABYTES_PER_SECOND : String := "GB/s"

/-- Constant `const.DOMAIN` of the integration (the `const` module is outside the
file under analysis; the concrete string is immaterial to every claim). -/
def DOMAIN : String := "googlewifi"

/-- Constant `const.DEV_MANUFACTURER` (value immaterial to every claim). -/
def DEV_MANUFACTURER : String := "Google"

/-- Constant `const.DEFAULT_ICON` (value immaterial to every claim). -/
def DEFAULT_ICON : String := "mdi:wifi"

/-- The nested `otherProperties` dict of a system record, of which the
code reads only `firmwareVersion`. -/
structure OtherProperties where
  firmwareVersion : Field String
deriving DecidableEq, Repr

/-- The nested `groupProperties` dict of a system record, of which the
code reads only `otherProperties`. -/
structure GroupProperties where
  otherProperties : Field OtherProperties
deriving DecidableEq, Repr

/-- One system's record inside the coordinator snapshot, restricted to the
members this module reads.  `speedtest` is `none` when the key is missing
or its value is `None`; an empty association list models an empty dict
(all three are falsy under Python's `dict.get` + truthiness test).  The
three count members model `dict.get`, which yields `None` when absent. -/
structure SystemRecord where
  speedtest : Option (List (String × ℚ))
  connected_devices : Option ℤ
  guest_devices : Option ℤ
  total_devices : Option ℤ
  groupProperties : Field GroupProperties
deriving DecidableEq, Repr

/-- The coordinator's data snapshot: an insertion-ordered dict from system
id to record, modelled as an association list. -/
abbrev Snapshot := List (String × SystemRecord)

/-- First-match association-list lookup (Python dict indexing / `.get`). -/
def lookupKey {α : Type} : List (String × α) → String → Option α
  | [], _ => none
  | (k, v) :: rest, key => if k = key then some v else lookupKey rest key

/-- The device-info dict both entity classes build (`ATTR_MANUFACTURER`,
`ATTR_NAME`, `ATTR_IDENTIFIERS`, `ATTR_MODEL`, `ATTR_SW_VERSION`). -/
structure DeviceInfo where
  manufacturer : String
  name : String
  identifiers : List (String × String)
  model : String
  sw_version : Option String
deriving DecidableEq, Repr

/-- Round half to even (Python's rounding mode for `round`). -/
def roundHalfEven (q : ℚ) : ℤ :=
  if q - (⌊q⌋ : ℚ) < 1 / 2 then ⌊q⌋
  else if 1 / 2 < q - (⌊q⌋ : ℚ) then ⌊q⌋ + 1
  else if ⌊q⌋ % 2 = 0 then ⌊q⌋ else ⌊q⌋ + 1

/-- Python's `round(q, 2)`. -/
def pyRound2 (q : ℚ) : ℚ := (roundHalfEven (q * 100) : ℚ) / 100

/-- The unit-scaling `if/elif` chain of `GoogleWifiSpeedSensor.state`,
sensor.py lines 133-138: multiply by `1000` for kB/s, by `1e-6` for MB/s,
by `1e-9` for GB/s, otherwise leave the value unchanged. -/
def applyScale (unit : String) (v : ℚ) : ℚ :=
  if unit = DATA_RATE_KILOBYTES_PER_SECOND then v * 1000
  else if unit = DATA_RATE_MEGABYTES_PER_SECOND then v * (1 / 1000000)
  else if unit = DATA_RATE_GIGABYTES_PER_SECOND then v * (1 / 1000000000)
  else v

/-- Entity state of `GoogleWifiSpeedSensor`: the immutable constructor
parameters plus the two mutable members (`self._state`, `self._device_info`)
and the (never written) `self.attrs` dict. -/
structure GoogleWifiSpeedSensor where
  _name : String
  _icon : String
  _system_id : String
  _speed_key : String
  _unit_of_measurement : String
  _state : Option ℚ
  _device_info : Option DeviceInfo
  attrs : List (String × String)
deriving DecidableEq, Repr

/-- Constructor `GoogleWifiSpeedSensor.__init__` (sensor.py lines 104-118): both caches
start at `None` and `attrs` at the empty dict. -/
def mkSpeedSensor (name icon system_id speed_key unit_of_measure : String) :
    GoogleWifiSpeedSensor :=
  { _name := name
    _icon := icon
    _system_id := system_id
    _speed_key := speed_key
    _unit_of_measurement := unit_of_measure
    _state := none
    _device_info := none
    attrs := [] }

/-- Property `GoogleWifiSpeedSensor.unique_id` (lines 120-123):
`f"{self._system_id}_{self._speed_key}"`. -/
def GoogleWifiSpeedSensor.unique_id (self : GoogleWifiSpeedSensor) : String :=
  self._system_id ++ "_" ++ self._speed_key

/-- Property `GoogleWifiSpeedSensor.state` (lines 125-142).  Returns the value the
property produces together with the entity as left behind by the read.
`coordinator.data[self._system_id]` raises `KeyError` when the system id is
missing; when `.get("speedtest")` is truthy the speed value is fetched
(`KeyError` if `self._speed_key` is missing), scaled, rounded and stored in
`self._state`; otherwise the cached `self._state` is returned unchanged. -/
def GoogleWifiSpeedSensor.state (coordData : Snapshot)
    (self : GoogleWifiSpeedSensor) :
    Except PyErr (Option ℚ × GoogleWifiSpeedSensor) :=
  match lookupKey coordData self._system_id with
  | none => .error .keyError
  | some r =>
    match r.speedtest with
    | none => .ok (self._state, self)
    | some st =>
      if st.isEmpty then .ok (self._state, self)
      else
        match lookupKey st self._speed_key with
        | none => .error .keyError
        | some v =>
          let s := pyRound2 (applyScale self._unit_of_measurement v)
          .ok (some s, { self with _state := some s })

/-- Property `GoogleWifiSpeedSensor.unit_of_measurement` (lines 144-147). -/
def GoogleWifiSpeedSensor.unit_of_measurement
    (self : GoogleWifiSpeedSensor) : String :=
  self._unit_of_measurement

/-- The nested read
`coordinator.data[system_id]["groupProperties"]["otherProperties"]["firmwareVersion"]`
performed by both `device_info` properties, given the system's record:
a missing key raises `KeyError`, subscripting a `None` value raises
`TypeError`, and a `firmwareVersion` whose stored value is `None` is simply
returned (it is only assigned, never subscripted). -/
def getFirmwareVersion (r : SystemRecord) : Except PyErr (Option String) :=
  match r.groupProperties with
  | .absent => .error .keyError
  | .null => .error .typeError
  | .val gp =>
    match gp.otherProperties with
    | .absent => .error .keyError
    | .null => .error .typeError
    | .val op =>
      match op.firmwareVersion with
      | .absent => .error .keyError
      | .null => .ok none
      | .val s => .ok (some s)

/-- Body shared verbatim by `GoogleWifiSpeedSensor.device_info` (lines
149-169) and `GoogleWifiConnectedDevices.device_info` (lines 202-222): a
`try` block builds the descriptor dict and assigns it to
`self._device_info`; only `TypeError` is caught (`except TypeError: pass`),
any other exception — in particular `KeyError` — propagates; the cached
`self._device_info` (initially `None`) is returned.  The result pairs the
returned descriptor with the new value of the `self._device_info` cache. -/
def deviceInfoRead (coordData : Snapshot) (name system_id : String)
    (cached : Option DeviceInfo) :
    Except PyErr (Option DeviceInfo × Option DeviceInfo) :=
  match lookupKey coordData system_id with
  | none => .error .keyError
  | some r =>
    match getFirmwareVersion r with
    | .error .typeError => .ok (cached, cached)
    | .error e => .error e
    | .ok fw =>
      let di : DeviceInfo :=
        { manufacturer := DEV_MANUFACTURER
          name := name
          identifiers := [(DOMAIN, system_id)]
          model := "Google Wifi"
          sw_version := fw }
      .ok (some di, some di)

/-- Property `GoogleWifiSpeedSensor.device_info` (lines 149-169). -/
def GoogleWifiSpeedSensor.device_info (coordData : Snapshot)
    (self : GoogleWifiSpeedSensor) :
    Except PyErr (Option DeviceInfo × GoogleWifiSpeedSensor) :=
  match deviceInfoRead coordData self._name self._system_id
      self._device_info with
  | .error e => .error e
  | .ok (ret, cache) => .ok (ret, { self with _device_info := cache })

/-- A call the entity makes on the coordinator. -/
inductive CoordCall where
  | forceSpeedTest : String → CoordCall
deriving DecidableEq, Repr

/-- Method `GoogleWifiSpeedSensor.async_speed_test` (lines 171-173):
`await self.coordinator.force_speed_test(system_id=self._system_id)`.
The coordinator is abstracted as the behaviour of its `force_speed_test`
method; the result of the action is that call's result (any exception it
raises propagates uncaught) paired with the list of coordinator calls the
action made. -/
def GoogleWifiSpeedSensor.async_speed_test {ε : Type}
    (force_speed_test : String → Except ε Unit)
    (self : GoogleWifiSpeedSensor) : Except ε Unit × List CoordCall :=
  (force_speed_test self._system_id,
   [CoordCall.forceSpeedTest self._system_id])

/-- Entity state of `GoogleWifiConnectedDevices`: the constructor
parameters plus the mutable `self._device_info` cache written by its
`device_info` property. -/
structure GoogleWifiConnectedDevices where
  _name : String
  _icon : String
  _system_id : String
  _count_type : String
  _device_info : Option DeviceInfo
deriving DecidableEq, Repr

/-- Constructor `GoogleWifiConnectedDevices.__init__` (lines 179-190). -/
def mkConnectedDevices (name icon system_id count_type : String) :
    GoogleWifiConnectedDevices :=
  { _name := name
    _icon := icon
    _system_id := system_id
    _count_type := count_type
    _device_info := none }

/-- Property `GoogleWifiConnectedDevices.unique_id` (lines 192-195):
`f"{self._system_id}_device_count_{self._count_type}"`. -/
def GoogleWifiConnectedDevices.unique_id
    (self : GoogleWifiConnectedDevices) : String :=
  self._system_id ++ "_device_count_" ++ self._count_type

/-- Property `GoogleWifiConnectedDevices.unit_of_measurement` (lines 197-200). -/
def GoogleWifiConnectedDevices.unit_of_measurement
    (_self : GoogleWifiConnectedDevices) : String :=
  "Devices"

/-- Property `GoogleWifiConnectedDevices.device_info` (lines 202-222); same body as
the speed sensor's. -/
def GoogleWifiConnectedDevices.device_info (coordData : Snapshot)
    (self : GoogleWifiConnectedDevices) :
    Except PyErr (Option DeviceInfo × GoogleWifiConnectedDevices) :=
  match deviceInfoRead coordData self._name self._system_id
      self._device_info with
  | .error e => .error e
  | .ok (ret, cache) => .ok (ret, { self with _device_info := cache })

/-- Property `GoogleWifiConnectedDevices.state` (lines 224-234).  The snapshot is
indexed only inside the branch selected by `self._count_type` (each branch
reads one count member via `.get`); when no branch matches, the local
`state` is never assigned and `return state` raises `UnboundLocalError`. -/
def GoogleWifiConnectedDevices.state (coordData : Snapshot)
    (self : GoogleWifiConnectedDevices) : Except PyErr (Option ℤ) :=
  if self._count_type = "main" then
    match lookupKey coordData self._system_id with
    | none => .error .keyError
    | some r => .ok r.connected_devices
  else if self._count_type = "guest" then
    match lookupKey coordData self._system_id with
    | none => .error .keyError
    | some r => .ok r.guest_devices
  else if self._count_type = "total" then
    match lookupKey coordData self._system_id with
    | none => .error .keyError
    | some r => .ok r.total_devices
  else .error .unboundLocalError

/-- A sensor entity instantiated by `async_setup_entry`. -/
inductive Entity where
  | speed : GoogleWifiSpeedSensor → Entity
  | counts : GoogleWifiConnectedDevices → Entity
deriving DecidableEq, Repr

/-- The `unique_id` of either entity kind. -/
def Entity.unique_id : Entity → String
  | .speed s => s.unique_id
  | .counts c => c.unique_id

/-- The five entities `async_setup_entry` appends for one system
(sensor.py lines 37-87), in source order: upload speed, download speed,
main, guest and total device counts. -/
def systemEntities (speedUnit system_id : String) : List Entity :=
  [ .speed (mkSpeedSensor ("Google Wifi System " ++ system_id ++ " Upload Speed")
      DEFAULT_ICON system_id "transmitWanSpeedBps" speedUnit),
    .speed (mkSpeedSensor ("Google Wifi System " ++ system_id ++ " Download Speed")
      DEFAULT_ICON system_id "receiveWanSpeedBps" speedUnit),
    .counts (mkConnectedDevices ("Google Wifi System " ++ system_id ++ " Connected Devices")
      "mdi:devices" system_id "main"),
    .counts (mkConnectedDevices ("Google Wifi System " ++ system_id ++ " Guest Devices")
      "mdi:devices" system_id "guest"),
    .counts (mkConnectedDevices ("Google Wifi System " ++ system_id ++ " Total Devices")
      "mdi:devices" system_id "total") ]

/-- Function `async_setup_entry` (lines 31-89): loop over `coordinator.data.items()`
appending the five entities per system to the `entities` list, which is then
passed to `async_add_entities`.  `speedUnitsOption` is
`entry.options.get(CONF_SPEED_UNITS)`; when absent the default display unit
is `DATA_RATE_MEGABYTES_PER_SECOND`. -/
def async_setup_entry (speedUnitsOption : Option String)
    (coordData : Snapshot) : List Entity :=
  coordData.foldl
    (fun acc p =>
      acc ++ systemEntities
        (speedUnitsOption.getD DATA_RATE_MEGABYTES_PER_SECOND) p.1)
    []

/-- Written from the claim's words (C1), for comparison with `applyScale`:
scale(raw) = 1, scale(KB/s) = 1000, scale(MB/s) = 1e-6, scale(GB/s) = 1e-9. -/
def specScale (u : String) : ℚ :=
  if u = DATA_RATE_KILOBYTES_PER_SECOND then 1000
  else if u = DATA_RATE_MEGABYTES_PER_SECOND then 1 / 1000000
  else if u = DATA_RATE_GIGABYTES_PER_SECOND then 1 / 1000000000
  else 1

/-- Written from the claim's words (C3), for comparison with
`GoogleWifiConnectedDevices.state`: the snapshot count field matching a
count category (`connected_devices` for main, `guest_devices` for guest,
`total_devices` for total). -/
def specMatchingCount (count_type : String) (r : SystemRecord) : Option ℤ :=
  if count_type = "main" then r.connected_devices
  else if count_type = "guest" then r.guest_devices
  else r.total_devices

/-- The five fixed unique-id suffixes produced for one system by the
entities `async_setup_entry` creates. -/
def uniqueIdSuffixes : List String :=
  ["_transmitWanSpeedBps", "_receiveWanSpeedBps",
   "_device_count_main", "_device_count_guest", "_device_count_total"]

/-- Concrete `speedtest` dict: 5 MB/s up, 3 MB/s down, as raw B/s. -/
def speedtestEx : List (String × ℚ) :=
  [("transmitWanSpeedBps", 5000000), ("receiveWanSpeedBps", 3000000)]

/-- Concrete system record with speed-test data, counts and firmware. -/
def recWithSpeedtest : SystemRecord :=
  { speedtest := some speedtestEx
    connected_devices := some 7
    guest_devices := some 2
    total_devices := some 9
    groupProperties := .val { otherProperties := .val { firmwareVersion := .val "1.0" } } }

/-- Concrete system record without a `speedtest` entry and whose
`groupProperties` value is `None`. -/
def recNoSpeedtest : SystemRecord :=
  { speedtest := none
    connected_devices := some 7
    guest_devices := some 2
    total_devices := some 9
    groupProperties := .null }

/-- Concrete system record whose dict has no `groupProperties` key. -/
def recNoGroupProps : SystemRecord :=
  { speedtest := none
    connected_devices := none
    guest_devices := none
    total_devices := none
    groupProperties := .absent }

/-- Snapshot holding `recWithSpeedtest` under system id `sys1`. -/
def snapWith : Snapshot := [("sys1", recWithSpeedtest)]

/-- Snapshot holding `recNoSpeedtest` under system id `sys1`. -/
def snapNoTest : Snapshot := [("sys1", recNoSpeedtest)]

/-- Snapshot holding `recNoGroupProps` under system id `sys1`. -/
def snapNoGP : Snapshot := [("sys1", recNoGroupProps)]

/-- Freshly constructed upload-speed sensor for `sys1` displaying MB/s. -/
def freshUpload : GoogleWifiSpeedSensor :=
  mkSpeedSensor "Google Wifi System sys1 Upload Speed" DEFAULT_ICON "sys1"
    "transmitWanSpeedBps" DATA_RATE_MEGABYTES_PER_SECOND

/-- Sensor `freshUpload` after an earlier read cached the value `5.0`. -/
def cachedUpload : GoogleWifiSpeedSensor := { freshUpload with _state := some 5 }

/-- Concrete device descriptor, as cached by an earlier `device_info` read. -/
def exDeviceInfo : DeviceInfo :=
  { manufacturer := DEV_MANUFACTURER
    name := "Google Wifi System sys1 Upload Speed"
    identifiers := [(DOMAIN, "sys1")]
    model := "Google Wifi"
    sw_version := some "1.0" }

/-- Sensor `freshUpload` with a previously cached device descriptor. -/
def cachedInfoUpload : GoogleWifiSpeedSensor :=
  { freshUpload with _device_info := some exDeviceInfo }

/-- Freshly constructed main-device-count sensor for `sys1`. -/
def mainCounter : GoogleWifiConnectedDevices :=
  mkConnectedDevices "Google Wifi System sys1 Connected Devices"
    "mdi:devices" "sys1" "main"

/-- Sensor `mainCounter` with a previously cached device descriptor. -/
def cachedInfoCounter : GoogleWifiConnectedDevices :=
  { mainCounter with _device_info := some exDeviceInfo }

/-- A count sensor constructed with a count type outside main/guest/total. -/
def bogusCounter : GoogleWifiConnectedDevices :=
  mkConnectedDevices "Google Wifi System sys1 Bogus Devices"
    "mdi:devices" "sys1" "bogus"

/-- Snapshot with two distinct systems. -/
def snapTwo : Snapshot :=
  [("sys1", recWithSpeedtest), ("sys2", recNoSpeedtest)]

/-! ## Helper lemmas -/

/-- The scaling chain of the code multiplies by exactly the claimed scale
factor, for every unit string. -/
lemma applyScale_eq_specScale (u : String) (v : ℚ) :
    applyScale u v = v * specScale u := by
  unfold applyScale specScale
  split
  · rfl
  · split
    · rfl
    · split
      · rfl
      · rw [mul_one]

/-- A non-empty list is not `isEmpty`. -/
lemma isEmpty_eq_false_of_ne_nil {α : Type} {l : List α} (h : l ≠ []) :
    l.isEmpty = false := by
  cases l with
  | nil => exact absurd rfl h
  | cons a t => rfl

/-- Speed-sensor state read when the snapshot holds a truthy `speedtest`
dict containing the sensor's speed key: the scaled, rounded value is
returned and stored in `_state`; every other member is left unchanged. -/
lemma speed_state_truthy (snap : Snapshot) (sensor : GoogleWifiSpeedSensor)
    (r : SystemRecord) (st : List (String × ℚ)) (v : ℚ)
    (hr : lookupKey snap sensor._system_id = some r)
    (hst : r.speedtest = some st) (hne : st ≠ [])
    (hv : lookupKey st sensor._speed_key = some v) :
    sensor.state snap
      = .ok (some (pyRound2 (applyScale sensor._unit_of_measurement v)),
             { sensor with
                _state := some (pyRound2 (applyScale sensor._unit_of_measurement v)) }) := by
  simp only [GoogleWifiSpeedSensor.state, hr, hst, hv,
    isEmpty_eq_false_of_ne_nil hne, Bool.false_eq_true, if_false]

/-- Speed-sensor state read when the system record's `speedtest` entry is
missing, `None` or the empty dict: the cached `_state` is returned and the
entity is left unchanged. -/
lemma speed_state_falsy (snap : Snapshot) (sensor : GoogleWifiSpeedSensor)
    (r : SystemRecord)
    (hr : lookupKey snap sensor._system_id = some r)
    (hst : r.speedtest = none ∨ r.speedtest = some []) :
    sensor.state snap = .ok (sensor._state, sensor) := by
  rcases hst with hst | hst <;>
    simp [GoogleWifiSpeedSensor.state, hr, hst]

/-- Count-sensor state read for a valid count type returns exactly the
matching snapshot count field. -/
lemma counts_state_eq (snap : Snapshot) (sensor : GoogleWifiConnectedDevices)
    (r : SystemRecord)
    (hct : sensor._count_type ∈ (["main", "guest", "total"] : List String))
    (hr : lookupKey snap sensor._system_id = some r) :
    sensor.state snap = .ok (specMatchingCount sensor._count_type r) := by
  simp only [List.mem_cons, List.not_mem_nil, or_false] at hct
  rcases hct with hct | hct | hct <;>
    simp [GoogleWifiConnectedDevices.state, specMatchingCount, hct, hr]

/-- Evaluation of the scaled, rounded upload value of the running example:
5000000 B/s displayed in MB/s is 5.0. -/
lemma pyRound2_five : pyRound2 (applyScale DATA_RATE_MEGABYTES_PER_SECOND 5000000) = 5 := by
  unfold applyScale
  rw [if_neg (by decide), if_pos rfl]
  have h1 : ((5000000 : ℚ) * (1 / 1000000)) * 100 = 500 := by norm_num
  rw [pyRound2, roundHalfEven, h1]
  norm_num

/-- Evaluation of the claimed formula on the running example:
round(5000000 × scale(MB/s), 2) = 5.0. -/
lemma pyRound2_five_spec :
    pyRound2 (5000000 * specScale DATA_RATE_MEGABYTES_PER_SECOND) = 5 := by
  rw [show specScale DATA_RATE_MEGABYTES_PER_SECOND = 1 / 1000000 from by
    rw [specScale, if_neg (by decide), if_pos rfl]]
  have h1 : ((5000000 : ℚ) * (1 / 1000000)) * 100 = 500 := by norm_num
  rw [pyRound2, roundHalfEven, h1]
  norm_num

/-! ## Claims -/

/-- C1: for every unit selection u among raw B/s, KB/s, MB/s and GB/s and
every raw bytes-per-second value v present under the system's `speedtest`
entry, the speed sensor's state read returns round(v × scale(u), 2), where
scale(raw) = 1, scale(KB/s) = 1000, scale(MB/s) = 1e-6 and
scale(GB/s) = 1e-9. -/
theorem C1_speed_state_scaled_rounded
    (snap : Snapshot) (sensor : GoogleWifiSpeedSensor)
    (r : SystemRecord) (st : List (String × ℚ)) (v : ℚ)
    (_hu : sensor._unit_of_measurement ∈
      [DATA_RATE_BYTES_PER_SECOND, DATA_RATE_KILOBYTES_PER_SECOND,
       DATA_RATE_MEGABYTES_PER_SECOND, DATA_RATE_GIGABYTES_PER_SECOND])
    (hr : lookupKey snap sensor._system_id = some r)
    (hst : r.speedtest = some st) (hne : st ≠ [])
    (hv : lookupKey st sensor._speed_key = some v) :
    sensor.state snap
      = .ok (some (pyRound2 (v * specScale sensor._unit_of_measurement)),
             { sensor with
                _state := some (pyRound2 (v * specScale sensor._unit_of_measurement)) }) := by
  rw [speed_state_truthy snap sensor r st v hr hst hne hv,
    applyScale_eq_specScale]

/-- C1 witness: the example snapshot with transmitWanSpeedBps = 5000000 and
unit MB/s yields upload state 5.0. -/
theorem C1_witness :
    GoogleWifiSpeedSensor.state snapWith freshUpload
      = .ok (some 5, { freshUpload with _state := some 5 }) := by
  have h := C1_speed_state_scaled_rounded snapWith freshUpload recWithSpeedtest
    speedtestEx 5000000 (by decide) rfl rfl (by decide) rfl
  have h5 : pyRound2 (5000000 * specScale freshUpload._unit_of_measurement) = 5 :=
    pyRound2_five_spec
  rw [h5] at h
  exact h

/-- C2 counterexample: a speed sensor that cached 5.0 on an earlier read
returns 5.0 — not "no value" — on a later read against a snapshot whose
record has no `speedtest` entry, refuting the "regardless of any earlier
reads" part of the claim. -/
theorem C2_counterexample :
    GoogleWifiSpeedSensor.state snapNoTest cachedUpload
        = .ok (some 5, cachedUpload)
      ∧ (some (5 : ℚ) : Option ℚ) ≠ none := by
  refine ⟨rfl, by simp⟩

/-- C2 as amended: when the system record's `speedtest` entry is missing,
`None` or empty, the speed sensor's state read returns the previously
cached value — `none` only if no earlier read ever cached one — without
error and without modifying the entity. -/
theorem C2_speed_state_absent_speedtest
    (snap : Snapshot) (sensor : GoogleWifiSpeedSensor) (r : SystemRecord)
    (hr : lookupKey snap sensor._system_id = some r)
    (hst : r.speedtest = none ∨ r.speedtest = some []) :
    sensor.state snap = .ok (sensor._state, sensor) :=
  speed_state_falsy snap sensor r hr hst

/-- C2 witness: a freshly constructed sensor (nothing cached) reads `none`
from a snapshot without `speedtest`. -/
theorem C2_witness :
    GoogleWifiSpeedSensor.state snapNoTest freshUpload = .ok (none, freshUpload) :=
  C2_speed_state_absent_speedtest snapNoTest freshUpload recNoSpeedtest rfl
    (Or.inl rfl)

/-- C3: for each count category in main/guest/total, the count sensor's
state read returns exactly the matching snapshot field (`none` when that
field is absent) and reads no other count field: the result is unchanged
under any snapshot change that preserves the matching field. -/
theorem C3_counts_state_matching_field
    (snap : Snapshot) (sensor : GoogleWifiConnectedDevices) (r : SystemRecord)
    (hct : sensor._count_type ∈ (["main", "guest", "total"] : List String))
    (hr : lookupKey snap sensor._system_id = some r) :
    sensor.state snap = .ok (specMatchingCount sensor._count_type r)
      ∧ ∀ (snap2 : Snapshot) (r2 : SystemRecord),
          lookupKey snap2 sensor._system_id = some r2 →
          specMatchingCount sensor._count_type r2
            = specMatchingCount sensor._count_type r →
          sensor.state snap2 = sensor.state snap := by
  refine ⟨counts_state_eq snap sensor r hct hr, ?_⟩
  intro snap2 r2 hr2 heq
  rw [counts_state_eq snap2 sensor r2 hct hr2,
    counts_state_eq snap sensor r hct hr, heq]

/-- C3 witness: a snapshot with connected_devices = 7 yields main-count
state 7. -/
theorem C3_witness :
    GoogleWifiConnectedDevices.state snapWith mainCounter = .ok (some 7) :=
  (C3_counts_state_matching_field snapWith mainCounter recWithSpeedtest
    (by decide) rfl).1

/-- C4 counterexample: on a snapshot whose system record has no
`groupProperties` key at all, the nested read raises `KeyError`, which
`except TypeError` does not catch — `device_info` of both sensor kinds
raises instead of returning the cached descriptor. -/
theorem C4_counterexample :
    GoogleWifiSpeedSensor.device_info snapNoGP freshUpload = .error .keyError
      ∧ GoogleWifiConnectedDevices.device_info snapNoGP mainCounter
        = .error .keyError :=
  ⟨rfl, rfl⟩

/-- C4 as amended: when the snapshot-shape mismatch surfaces as a
`TypeError` (a `None` met while subscripting the nested metadata — e.g.
`groupProperties` present but `None`), the `device_info` accessor of both
sensor kinds does not raise and returns the previously cached descriptor
(or none), leaving the cache and the whole entity unchanged; a record
lacking the `groupProperties` key instead raises `KeyError`. -/
theorem C4_device_info_swallows_typeerror
    (snap : Snapshot) (s : GoogleWifiSpeedSensor)
    (c : GoogleWifiConnectedDevices) (rs rc : SystemRecord)
    (hrs : lookupKey snap s._system_id = some rs)
    (hts : getFirmwareVersion rs = .error .typeError)
    (hrc : lookupKey snap c._system_id = some rc)
    (htc : getFirmwareVersion rc = .error .typeError) :
    s.device_info snap = .ok (s._device_info, s)
      ∧ c.device_info snap = .ok (c._device_info, c) := by
  constructor
  · simp [GoogleWifiSpeedSensor.device_info, deviceInfoRead, hrs, hts]
  · simp [GoogleWifiConnectedDevices.device_info, deviceInfoRead, hrc, htc]

/-- C4 witness: against a record whose `groupProperties` is `None`, both
sensor kinds return their previously cached descriptor unchanged. -/
theorem C4_witness :
    GoogleWifiSpeedSensor.device_info snapNoTest cachedInfoUpload
        = .ok (some exDeviceInfo, cachedInfoUpload)
      ∧ GoogleWifiConnectedDevices.device_info snapNoTest cachedInfoCounter
        = .ok (some exDeviceInfo, cachedInfoCounter) :=
  C4_device_info_swallows_typeerror snapNoTest cachedInfoUpload
    cachedInfoCounter recNoSpeedtest recNoSpeedtest rfl rfl rfl rfl

/-- C5 counterexample: two speed sensors agreeing on system id, speed key
and unit but with different read histories return different values against
the same current snapshot (one lacking `speedtest`), refuting the claim
that a state read is a function of the current snapshot alone. -/
theorem C5_counterexample :
    cachedUpload._system_id = freshUpload._system_id
      ∧ cachedUpload._speed_key = freshUpload._speed_key
      ∧ cachedUpload._unit_of_measurement = freshUpload._unit_of_measurement
      ∧ GoogleWifiSpeedSensor.state snapNoTest cachedUpload
          = .ok (some 5, cachedUpload)
      ∧ GoogleWifiSpeedSensor.state snapNoTest freshUpload
          = .ok (none, freshUpload)
      ∧ (some (5 : ℚ) : Option ℚ) ≠ none :=
  ⟨rfl, rfl, rfl, rfl, rfl, by simp⟩

/-- C5 as amended: a count sensor's state read is a function of the
current snapshot and its (system id, count type) alone — on every
snapshot, with or without speed-test data; a speed sensor's returned
value is a function of the current snapshot and its (system id, speed
key, unit) alone whenever the system's record holds a truthy `speedtest`
entry — only in the falsy-`speedtest` case does the cached read history
show through (see the counterexample). -/
theorem C5_state_determined_by_snapshot
    (snap : Snapshot) (c1 c2 : GoogleWifiConnectedDevices)
    (hcs : c1._system_id = c2._system_id)
    (hct : c1._count_type = c2._count_type) :
    c1.state snap = c2.state snap
      ∧ ∀ (s1 s2 : GoogleWifiSpeedSensor),
          s1._system_id = s2._system_id →
          s1._speed_key = s2._speed_key →
          s1._unit_of_measurement = s2._unit_of_measurement →
          ∀ (r : SystemRecord) (st : List (String × ℚ)),
            lookupKey snap s2._system_id = some r →
            r.speedtest = some st → st ≠ [] →
            Except.map Prod.fst (s1.state snap)
              = Except.map Prod.fst (s2.state snap) := by
  constructor
  · unfold GoogleWifiConnectedDevices.state
    rw [hcs, hct]
  · intro s1 s2 hsid hkey huni r st hr hst hne
    cases hv : lookupKey st s2._speed_key with
    | none =>
      have h1 : s1.state snap = .error .keyError := by
        simp only [GoogleWifiSpeedSensor.state, hsid, hkey, hr, hst,
          isEmpty_eq_false_of_ne_nil hne, Bool.false_eq_true, if_false, hv]
      have h2 : s2.state snap = .error .keyError := by
        simp only [GoogleWifiSpeedSensor.state, hr, hst,
          isEmpty_eq_false_of_ne_nil hne, Bool.false_eq_true, if_false, hv]
      rw [h1, h2]
    | some v =>
      rw [speed_state_truthy snap s1 r st v (by rw [hsid]; exact hr) hst hne
          (by rw [hkey]; exact hv),
        speed_state_truthy snap s2 r st v hr hst hne hv, huni]
      rfl

/-- C5 witness: count sensors differing only in cached descriptor read
equal values on the snapshot without `speedtest`; with a truthy
`speedtest` present, speed sensors that differ only in their caches read
equal values. -/
theorem C5_witness :
    GoogleWifiConnectedDevices.state snapNoTest cachedInfoCounter
        = GoogleWifiConnectedDevices.state snapNoTest mainCounter
      ∧ Except.map Prod.fst (GoogleWifiSpeedSensor.state snapWith cachedUpload)
        = Except.map Prod.fst (GoogleWifiSpeedSensor.state snapWith freshUpload) :=
  ⟨(C5_state_determined_by_snapshot snapNoTest cachedInfoCounter
      mainCounter rfl rfl).1,
   (C5_state_determined_by_snapshot snapWith cachedInfoCounter
      mainCounter rfl rfl).2 cachedUpload freshUpload rfl rfl rfl
     recWithSpeedtest speedtestEx rfl rfl (by decide)⟩

/-- C6: the speed-test action performs exactly one coordinator call —
`force_speed_test` with the sensor's own system id —, its result is that
call's result, and an error raised by the call propagates unchanged. -/
theorem C6_speed_test_action {ε : Type}
    (force_speed_test : String → Except ε Unit)
    (sensor : GoogleWifiSpeedSensor) (e : ε)
    (herr : force_speed_test sensor._system_id = .error e) :
    (sensor.async_speed_test force_speed_test).2
        = [CoordCall.forceSpeedTest sensor._system_id]
      ∧ (sensor.async_speed_test force_speed_test).1
        = force_speed_test sensor._system_id
      ∧ (sensor.async_speed_test force_speed_test).1 = .error e := by
  refine ⟨rfl, rfl, ?_⟩
  rw [GoogleWifiSpeedSensor.async_speed_test]
  exact herr

/-- C6 witness: a coordinator whose forced speed test fails makes the
action fail with the same error, after exactly one call carrying the
sensor's system id. -/
theorem C6_witness :
    (freshUpload.async_speed_test
        (fun _ => (.error "boom" : Except String Unit))).2
      = [CoordCall.forceSpeedTest "sys1"]
      ∧ (freshUpload.async_speed_test
          (fun _ => (.error "boom" : Except String Unit))).1
        = (fun _ => (.error "boom" : Except String Unit)) "sys1"
      ∧ (freshUpload.async_speed_test
          (fun _ => (.error "boom" : Except String Unit))).1
        = .error "boom" :=
  C6_speed_test_action (fun _ => (.error "boom" : Except String Unit))
    freshUpload "boom" rfl

/-- Folding append over a list builds the same entity list as `flatMap`. -/
lemma foldl_append_eq_flatMap {α β : Type} (f : α → List β) :
    ∀ (l : List α) (init : List β),
      l.foldl (fun acc p => acc ++ f p) init = init ++ l.flatMap f
  | [], init => by simp
  | x :: xs, init => by
    rw [List.foldl_cons, foldl_append_eq_flatMap f xs (init ++ f x),
      List.flatMap_cons, List.append_assoc]

/-- The entity list built by setup, in `flatMap` form. -/
lemma async_setup_entry_eq_flatMap (opts : Option String) (snap : Snapshot) :
    async_setup_entry opts snap
      = snap.flatMap (fun p =>
          systemEntities (opts.getD DATA_RATE_MEGABYTES_PER_SECOND) p.1) := by
  have h := foldl_append_eq_flatMap
    (fun p : String × SystemRecord =>
      systemEntities (opts.getD DATA_RATE_MEGABYTES_PER_SECOND) p.1) snap []
  simpa [async_setup_entry] using h

/-- Five entities per system. -/
lemma length_flatMap_systemEntities (u : String) :
    ∀ snap : Snapshot,
      (snap.flatMap (fun p => systemEntities u p.1)).length = 5 * snap.length
  | [] => rfl
  | p :: rest => by
    rw [List.flatMap_cons, List.length_append,
      length_flatMap_systemEntities u rest, List.length_cons]
    show 5 + 5 * rest.length = 5 * (rest.length + 1)
    ring

/-- C7: platform setup instantiates, for each system of the snapshot in
order, exactly the five sensors listed by `systemEntities` — upload speed
(key transmitWanSpeedBps), download speed (key receiveWanSpeedBps), then
the main, guest and total device-count sensors — so five entities per
system in that order. -/
theorem C7_setup_five_entities_per_system (opts : Option String)
    (snap : Snapshot) :
    async_setup_entry opts snap
      = snap.flatMap (fun p =>
          systemEntities (opts.getD DATA_RATE_MEGABYTES_PER_SECOND) p.1)
      ∧ (async_setup_entry opts snap).length = 5 * snap.length := by
  refine ⟨async_setup_entry_eq_flatMap opts snap, ?_⟩
  rw [async_setup_entry_eq_flatMap opts snap]
  exact length_flatMap_systemEntities _ snap

/-- C8: a speed-sensor read over a truthy `speedtest` stores the rounded,
scaled value into `_state` and changes no other entity member; a later
read after the `speedtest` entry disappears returns that cached value. -/
theorem C8_speed_state_cache_and_frame
    (snap snap2 : Snapshot) (sensor : GoogleWifiSpeedSensor)
    (r r2 : SystemRecord) (st : List (String × ℚ)) (v : ℚ)
    (hr : lookupKey snap sensor._system_id = some r)
    (hst : r.speedtest = some st) (hne : st ≠ [])
    (hv : lookupKey st sensor._speed_key = some v)
    (hr2 : lookupKey snap2 sensor._system_id = some r2)
    (hst2 : r2.speedtest = none) :
    sensor.state snap
        = .ok (some (pyRound2 (applyScale sensor._unit_of_measurement v)),
               { sensor with
                  _state := some (pyRound2 (applyScale sensor._unit_of_measurement v)) })
      ∧ GoogleWifiSpeedSensor.state snap2
          { sensor with
             _state := some (pyRound2 (applyScale sensor._unit_of_measurement v)) }
        = .ok (some (pyRound2 (applyScale sensor._unit_of_measurement v)),
               { sensor with
                  _state := some (pyRound2 (applyScale sensor._unit_of_measurement v)) }) := by
  refine ⟨speed_state_truthy snap sensor r st v hr hst hne hv, ?_⟩
  exact speed_state_falsy snap2
    { sensor with
       _state := some (pyRound2 (applyScale sensor._unit_of_measurement v)) }
    r2 hr2 (Or.inl hst2)

/-- C8 witness: reading 5.0 caches it, and a later read against a snapshot
without `speedtest` still returns 5.0. -/
theorem C8_witness :
    GoogleWifiSpeedSensor.state snapWith freshUpload
        = .ok (some 5, { freshUpload with _state := some 5 })
      ∧ GoogleWifiSpeedSensor.state snapNoTest { freshUpload with _state := some 5 }
        = .ok (some 5, { freshUpload with _state := some 5 }) := by
  have h := C8_speed_state_cache_and_frame snapWith snapNoTest freshUpload
    recWithSpeedtest recNoSpeedtest speedtestEx 5000000 rfl rfl (by decide)
    rfl rfl rfl
  have h5 : pyRound2 (applyScale freshUpload._unit_of_measurement 5000000) = 5 :=
    pyRound2_five
  rw [h5] at h
  exact h

/-- C9: a count sensor constructed with a count type outside
main/guest/total never returns a value: its state read raises
`UnboundLocalError` (the local `state` is never assigned) on every
snapshot. -/
theorem C9_counts_state_invalid_count_type
    (snap : Snapshot) (sensor : GoogleWifiConnectedDevices)
    (h : sensor._count_type ∉ (["main", "guest", "total"] : List String)) :
    sensor.state snap = .error .unboundLocalError := by
  simp only [List.mem_cons, List.not_mem_nil, or_false, not_or] at h
  obtain ⟨h1, h2, h3⟩ := h
  simp [GoogleWifiConnectedDevices.state, h1, h2, h3]

/-- C9 witness: the count type "bogus" fails on a well-formed snapshot. -/
theorem C9_witness :
    GoogleWifiConnectedDevices.state snapWith bogusCounter
      = .error .unboundLocalError :=
  C9_counts_state_invalid_count_type snapWith bogusCounter (by decide)

/-- String append cancels on the right. -/
lemma string_append_right_cancel (s1 s2 t : String) (h : s1 ++ t = s2 ++ t) :
    s1 = s2 := by
  apply String.ext
  have hd : (s1 ++ t).data = (s2 ++ t).data := by rw [h]
  rw [String.data_append, String.data_append] at hd
  exact List.append_cancel_right hd

/-- String append cancels on the left. -/
lemma string_append_left_cancel (s t1 t2 : String) (h : s ++ t1 = s ++ t2) :
    t1 = t2 := by
  apply String.ext
  have hd : (s ++ t1).data = (s ++ t2).data := by rw [h]
  rw [String.data_append, String.data_append] at hd
  exact List.append_cancel_left hd

/-- Two appends with suffixes that disagree within their last `m`
characters are never equal, whatever the prefixes. -/
lemma append_ne_of_take_rev_ne (t1 t2 : String) (m : Nat)
    (hm1 : m ≤ t1.data.length) (hm2 : m ≤ t2.data.length)
    (hne : t1.data.reverse.take m ≠ t2.data.reverse.take m) :
    ∀ s1 s2 : String, s1 ++ t1 ≠ s2 ++ t2 := by
  intro s1 s2 h
  apply hne
  have hd : (s1 ++ t1).data = (s2 ++ t2).data := by rw [h]
  rw [String.data_append, String.data_append] at hd
  have hrev := congrArg List.reverse hd
  rw [List.reverse_append, List.reverse_append] at hrev
  have htake := congrArg (List.take m) hrev
  rwa [List.take_append_of_le_length (by simpa using hm1),
    List.take_append_of_le_length (by simpa using hm2)] at htake

/-- The five unique-id suffixes distinguish both the system id and the
suffix: equal concatenations force equal parts. -/
lemma sid_suffix_eq (sid1 sid2 t1 t2 : String)
    (h1 : t1 ∈ uniqueIdSuffixes) (h2 : t2 ∈ uniqueIdSuffixes)
    (heq : sid1 ++ t1 = sid2 ++ t2) : sid1 = sid2 ∧ t1 = t2 := by
  simp only [uniqueIdSuffixes, List.mem_cons, List.not_mem_nil, or_false] at h1 h2
  rcases h1 with rfl | rfl | rfl | rfl | rfl <;>
    rcases h2 with rfl | rfl | rfl | rfl | rfl <;>
    first
      | exact ⟨string_append_right_cancel sid1 sid2 _ heq, rfl⟩
      | exact absurd heq
          (append_ne_of_take_rev_ne _ _ 14 (by decide) (by decide) (by decide)
            sid1 sid2)

/-- The unique ids of one system's five entities are the system id
followed by each of the five fixed suffixes. -/
lemma map_uniqueId_systemEntities (u sid : String) :
    (systemEntities u sid).map Entity.unique_id
      = uniqueIdSuffixes.map (fun t => sid ++ t) := by
  simp only [systemEntities, uniqueIdSuffixes, List.map_cons, List.map_nil,
    Entity.unique_id, GoogleWifiSpeedSensor.unique_id,
    GoogleWifiConnectedDevices.unique_id, mkSpeedSensor, mkConnectedDevices,
    String.append_assoc]
  rw [(by decide : ("_" ++ "transmitWanSpeedBps" : String) = "_transmitWanSpeedBps"),
    (by decide : ("_" ++ "receiveWanSpeedBps" : String) = "_receiveWanSpeedBps"),
    (by decide : ("_device_count_" ++ "main" : String) = "_device_count_main"),
    (by decide : ("_device_count_" ++ "guest" : String) = "_device_count_guest"),
    (by decide : ("_device_count_" ++ "total" : String) = "_device_count_total")]

/-- Membership characterisation of the setup unique ids. -/
lemma mem_setup_ids {u x : String} :
    ∀ {snap : Snapshot},
      x ∈ (snap.flatMap (fun p => systemEntities u p.1)).map Entity.unique_id →
      ∃ sid t, sid ∈ snap.map Prod.fst ∧ t ∈ uniqueIdSuffixes ∧ x = sid ++ t := by
  intro snap hx
  rw [List.map_flatMap] at hx
  simp only [List.mem_flatMap] at hx
  obtain ⟨p, hp, hxp⟩ := hx
  rw [map_uniqueId_systemEntities] at hxp
  simp only [List.mem_map] at hxp
  obtain ⟨t, ht, rfl⟩ := hxp
  exact ⟨p.1, t, List.mem_map_of_mem _ hp, ht, rfl⟩

/-- Distinct system ids give pairwise-distinct setup unique ids. -/
lemma nodup_setup_ids (u : String) :
    ∀ snap : Snapshot, (snap.map Prod.fst).Nodup →
      ((snap.flatMap (fun p => systemEntities u p.1)).map Entity.unique_id).Nodup
  | [], _ => by simp
  | p :: rest, h => by
    rw [List.flatMap_cons, List.map_append, map_uniqueId_systemEntities]
    rw [List.map_cons, List.nodup_cons] at h
    obtain ⟨hnot, hrest⟩ := h
    rw [List.nodup_append]
    refine ⟨?_, nodup_setup_ids u rest hrest, ?_⟩
    · refine List.Nodup.map ?_ (by decide)
      intro t1 t2 hteq
      exact string_append_left_cancel p.1 t1 t2 hteq
    · intro a ha ha2
      rw [List.mem_map] at ha
      obtain ⟨t, ht, rfl⟩ := ha
      obtain ⟨sid2, t2, hsid2, ht2, heq⟩ := mem_setup_ids ha2
      obtain ⟨rfl, -⟩ := sid_suffix_eq p.1 sid2 t t2 ht ht2 heq
      exact hnot hsid2

/-- C10: for every snapshot with pairwise-distinct system ids, the unique
ids of all entities created at setup — system id followed by one of the
two fixed speed keys or by device_count_ and one of the three fixed count
types — are pairwise distinct, across systems and sensor kinds. -/
theorem C10_setup_unique_ids_distinct (opts : Option String) (snap : Snapshot)
    (h : (snap.map Prod.fst).Nodup) :
    ((async_setup_entry opts snap).map Entity.unique_id).Nodup := by
  rw [async_setup_entry_eq_flatMap opts snap]
  exact nodup_setup_ids _ snap h

/-- C10 witness: a two-system snapshot yields ten pairwise-distinct
unique ids. -/
theorem C10_witness :
    ((async_setup_entry none snapTwo).map Entity.unique_id).Nodup :=
  C10_setup_unique_ids_distinct none snapTwo (by decide)

end GoogleWifi


